import Mathlib

/-!
# Verification of the file-transfer staging-folder engine

Shallow embedding of the repository's two entry points:

* `cleanup_old_files.py` — the batch retention job: resolve the staging
  folder, list its files (one page, `pageSize=100`, ordered by
  `modifiedTime asc`), delete every file strictly older than the cutoff
  `now - 7 days`, and exit `0`/`1` from the `__main__` try/except.
* `app.py` — the interactive app's pure core: find-or-create folder
  resolution (`get_folder_id`), the per-item batch upload loop, the
  chunked download loop (`download_file`), and the size formatter
  (`format_size`).

Timestamps are modelled as `Int` seconds since the epoch in UTC
(`datetime` comparisons in the source are exact comparisons of UTC
instants). The remote Drive state is a `Store`: a list of files/folders
plus a set of ids whose delete call fails with a transport error
(modelling the store-side failures the source's `delete` call can raise).
-/

namespace FileTransfer

/-- A Drive file or folder as the source reads it:
`files(id, name, modifiedTime, size)` plus the query attributes
`trashed`, parent and mimeType (folders are `mimeType = folder`). -/
structure DriveFile where
  id : String
  name : String
  modifiedTime : Int
  size : Option Nat
  trashed : Bool
  parent : Option String
  isFolder : Bool
  deriving Repr, DecidableEq

/-- The remote store: the account's files, the ids whose delete call
fails with a store-side (transport) error, and bookkeeping for folder
creation (`creates` counts create-folder calls, `nextId` feeds fresh
ids). -/
structure Store where
  files : List DriveFile
  failDelete : List String
  creates : Nat
  nextId : Nat
  deriving Repr, DecidableEq

/-- Errors a Drive call can raise (the source sees them as exceptions). -/
inductive DriveError where
  | notFound
  | storeError
  | authError
  deriving Repr, DecidableEq

/-- Credential bundle assembled by `get_credentials`. -/
structure Credential where
  token : String
  refreshToken : String
  clientId : String
  clientSecret : String
  deriving Repr, DecidableEq

/-- Environment variables read by `cleanup_old_files.py`'s
`get_credentials` (`GOOGLE_TOKEN`, `GOOGLE_REFRESH_TOKEN`,
`GOOGLE_CLIENT_ID`, `GOOGLE_CLIENT_SECRET`). -/
structure Env where
  token : Option String
  refreshToken : Option String
  clientId : Option String
  clientSecret : Option String
  deriving Repr, DecidableEq

def FOLDER_NAME : String := "WorkPC_Transfer"

def MAX_AGE_DAYS : Nat := 7

/-- `timedelta(days=MAX_AGE_DAYS)` in seconds. -/
def maxAgeSeconds : Int := (MAX_AGE_DAYS : Int) * 86400

/-- `get_credentials`: raises (`ValueError`) when any of the four
required environment variables is missing. -/
def get_credentials (env : Env) : Except DriveError Credential :=
  match env.token, env.refreshToken, env.clientId, env.clientSecret with
  | some t, some r, some ci, some cs => .ok ⟨t, r, ci, cs⟩
  | _, _, _, _ => .error .authError

/-- The folder query shared by both entry points:
`name='WorkPC_Transfer' and mimeType='application/vnd.google-apps.folder'
and trashed=false`. -/
def matchingFolders (s : Store) : List DriveFile :=
  s.files.filter fun f =>
    decide (f.name = FOLDER_NAME ∧ f.isFolder = true ∧ f.trashed = false)

/-- `cleanup_old_files.py`'s `get_folder_id`: first match or `None`
(never creates). -/
def get_folder_id_c (s : Store) : Option String :=
  match matchingFolders s with
  | [] => none
  | f :: _ => some f.id

/-- The folder a `files().create` call with the folder metadata of
`app.py`'s `get_folder_id` produces: named `WorkPC_Transfer`, folder
mimeType, not trashed, with a store-assigned fresh id. -/
def createdFolder (s : Store) : DriveFile :=
  { id := "folder" ++ toString s.nextId, name := FOLDER_NAME,
    modifiedTime := 0, size := none, trashed := false, parent := none,
    isFolder := true }

/-- `app.py`'s `get_folder_id`: first match, else one create-folder call
returning the new folder's id. -/
def app_get_folder_id (s : Store) : String × Store :=
  match matchingFolders s with
  | f :: _ => (f.id, s)
  | [] =>
      ((createdFolder s).id,
       { s with files := s.files ++ [createdFolder s],
                creates := s.creates + 1,
                nextId := s.nextId + 1 })

/-- The object query `'folderId' in parents and trashed = false`. -/
def folderObjects (s : Store) (folderId : String) : List DriveFile :=
  s.files.filter fun f => decide (f.parent = some folderId ∧ f.trashed = false)

/-- `orderBy="modifiedTime asc"`. -/
def timeLE (a b : DriveFile) : Prop := a.modifiedTime ≤ b.modifiedTime

instance : DecidableRel timeLE := fun a b => Int.decLe _ _

instance : IsTotal DriveFile timeLE := ⟨fun a b => Int.le_total _ _⟩

instance : IsTrans DriveFile timeLE := ⟨fun _ _ _ h h' => le_trans h h'⟩

/-- `cleanup_old_files.py`'s `list_files`: one `files().list` call with
`pageSize=100` and `orderBy="modifiedTime asc"`; the response carries at
most one page of 100 entries and the source never follows a page
token. -/
def list_files (s : Store) (folderId : String) : List DriveFile :=
  (List.insertionSort timeLE (folderObjects s folderId)).take 100

/-- `delete_file` / `files().delete`: a store-side error for ids in
`failDelete`, 404 for an id that no longer exists, otherwise removes the
file. -/
def delete_file (s : Store) (fileId : String) : Except DriveError Store :=
  if fileId ∈ s.failDelete then .error .storeError
  else if s.files.any fun f => f.id == fileId then
    .ok { s with files := s.files.filter fun f => !(f.id == fileId) }
  else .error .notFound

/-- The `for file in files:` loop of `cleanup_old_files`: walk the
listing snapshot, delete each file with `modifiedTime < cutoff_date`,
count deletions. A delete exception propagates immediately (the loop has
no per-item handler). Returns the delete-call trace and the final
store. -/
def sweepLoop (cutoff : Int) :
    List DriveFile → Store → Except DriveError (List DriveFile × Store)
  | [], s => .ok ([], s)
  | f :: rest, s =>
      if f.modifiedTime < cutoff then
        match delete_file s f.id with
        | .error e => .error e
        | .ok s' =>
            match sweepLoop cutoff rest s' with
            | .error e => .error e
            | .ok (ds, s'') => .ok (f :: ds, s'')
      else sweepLoop cutoff rest s

/-- `cleanup_old_files`: credentials, folder resolution (absent folder
short-circuits to 0), one listing, one cutoff `now - 7 days`, then the
sweep loop; returns the deleted count. -/
def cleanup_old_files (env : Env) (s : Store) (now : Int) :
    Except DriveError (Nat × Store) :=
  match get_credentials env with
  | .error e => .error e
  | .ok _ =>
      match get_folder_id_c s with
      | none => .ok (0, s)
      | some folderId =>
          let files := list_files s folderId
          let cutoff := now - maxAgeSeconds
          match sweepLoop cutoff files s with
          | .error e => .error e
          | .ok (ds, s') => .ok (ds.length, s')

/-- The `__main__` block: exit 0 when `cleanup_old_files` returns, exit 1
on any exception. -/
def mainExitCode (env : Env) (s : Store) (now : Int) : Nat :=
  match cleanup_old_files env s now with
  | .ok _ => 0
  | .error _ => 1

/-- `app.py`'s `upload_file`: one `files().create` call making a new
object parented at `folderId`; returns the store-assigned id. -/
def upload_file (s : Store) (folderId name : String) (content : List Nat)
    (mime : String) : String × Store :=
  let newId := "file" ++ toString s.nextId
  let nf : DriveFile :=
    { id := newId, name := name, modifiedTime := 0, size := some content.length,
      trashed := false, parent := some folderId, isFolder := false }
  (newId, { s with files := s.files ++ [nf], nextId := s.nextId + 1 })

/-- The upload tab's `for i, uploaded_file in enumerate(uploaded_files)`
loop: each item's try-block (`read()` plus `upload_file`) is a fallible
action `up`; success bumps `success_count`, an exception is shown inline
(`st.error`) and the loop moves on to the next item. Returns the final
count and the per-item outcome trace (`true` = success), given the count
accumulated so far. -/
def uploadBatchLoop {α β : Type} (up : α → Except DriveError β) :
    List α → Nat → Nat × List Bool
  | [], c => (c, [])
  | it :: rest, c =>
      match up it with
      | .ok _ =>
          let r := uploadBatchLoop up rest (c + 1)
          (r.1, true :: r.2)
      | .error _ =>
          let r := uploadBatchLoop up rest c
          (r.1, false :: r.2)

/-- State of `MediaIoBaseDownload`: the chunks the store has yet to
serve, and the `BytesIO` buffer written so far. -/
structure DownloadState where
  remaining : List (List Nat)
  buffer : List Nat
  deriving Repr, DecidableEq

/-- `downloader.next_chunk()`: appends the next chunk to the buffer and
reports `done` when the store signals the transfer complete (with the
final chunk, or immediately for an empty object). -/
def next_chunk (st : DownloadState) : DownloadState × Bool :=
  match st.remaining with
  | [] => (st, true)
  | c :: rest =>
      ({ remaining := rest, buffer := st.buffer ++ c }, rest.isEmpty)

/-- `app.py`'s `download_file`: `while not done: status, done =
downloader.next_chunk()`, then return the buffer. `fuel` bounds the
number of loop iterations so the embedding is total; `none` means the
loop was still running after `fuel` iterations. -/
def download_file (fuel : Nat) (st : DownloadState) : Option (List Nat) :=
  match fuel with
  | 0 => none
  | fuel + 1 =>
      let r := next_chunk st
      if r.2 then some r.1.buffer else download_file fuel r.1

/-- Round half to even, as Python's float/format rounding does. -/
def roundHalfEven (q : ℚ) : ℤ :=
  let n := ⌊q⌋
  if q - n < 1/2 then n
  else if (1 : ℚ)/2 < q - n then n + 1
  else if n % 2 = 0 then n else n + 1

/-- The f-string `f"{x:.1f}"` for a non-negative value: one decimal
digit, rounding half to even. -/
def fmt1 (q : ℚ) : String :=
  let t := roundHalfEven (q * 10)
  toString (t / 10) ++ "." ++ toString (t % 10)

/-- The unit list `['B', 'KB', 'MB', 'GB']` of `format_size`. -/
def sizeUnits : List String := ["B", "KB", "MB", "GB"]

/-- The `for unit in ['B', 'KB', 'MB', 'GB']:` loop of `format_size`:
return at the first unit where the running value is below 1024, dividing
by 1024 otherwise; falls through to `TB`. -/
def format_size_loop : ℚ → List String → String
  | q, [] => fmt1 q ++ " TB"
  | q, u :: us =>
      if q < 1024 then fmt1 q ++ " " ++ u else format_size_loop (q / 1024) us

/-- `app.py`'s `format_size`: `"N/A"` for `None`, else the unit loop on
the integer byte count. -/
def format_size : Option Nat → String
  | none => "N/A"
  | some n => format_size_loop (n : ℚ) sizeUnits

/-- The unit `format_size`'s loop settles on (projection of
`format_size_loop`). -/
def size_unit_loop : ℚ → List String → String
  | _, [] => "TB"
  | q, u :: us => if q < 1024 then u else size_unit_loop (q / 1024) us

/-- The scaled numeric value `format_size`'s loop renders (projection of
`format_size_loop`). -/
def size_scaled_loop : ℚ → List String → ℚ
  | q, [] => q
  | q, _ :: us => if q < 1024 then q else size_scaled_loop (q / 1024) us

def size_unit (n : Nat) : String := size_unit_loop (n : ℚ) sizeUnits

def size_scaled (n : Nat) : ℚ := size_scaled_loop (n : ℚ) sizeUnits

/-! ### Concrete fixtures for witnesses and counterexamples -/

/-- The staging folder, resolved to id `"fid"`. -/
def folder0 : DriveFile :=
  { id := "fid", name := FOLDER_NAME, modifiedTime := 0, size := none,
    trashed := false, parent := none, isFolder := true }

/-- A file 11 days old at `now = 1000000` (eligible for deletion). -/
def fileOld : DriveFile :=
  { id := "old", name := "old.txt", modifiedTime := 0, size := some 5,
    trashed := false, parent := some "fid", isFolder := false }

/-- A second eligible file, slightly newer than `fileOld`. -/
def fileOld2 : DriveFile :=
  { id := "old2", name := "old2.txt", modifiedTime := 100, size := none,
    trashed := false, parent := some "fid", isFolder := false }

/-- A file whose age at `now = 1000000` is exactly `maxAgeSeconds`. -/
def fileBoundary : DriveFile :=
  { id := "edge", name := "edge.txt", modifiedTime := 395200, size := none,
    trashed := false, parent := some "fid", isFolder := false }

/-- An environment with all four credential variables set. -/
def envOk : Env :=
  { token := some "t", refreshToken := some "r",
    clientId := some "ci", clientSecret := some "cs" }

/-! ### Lemmas about the sweep -/

/-- On a sweep that raises no exception, the delete-call trace is exactly
the snapshot filtered by the strict cutoff test. -/
theorem sweepLoop_ok_deleted (cutoff : Int) :
    ∀ (files : List DriveFile) (s : Store) (ds : List DriveFile) (s' : Store),
      sweepLoop cutoff files s = .ok (ds, s') →
      ds = files.filter fun f => decide (f.modifiedTime < cutoff)
  | [], s, ds, s', h => by
      simp only [sweepLoop, Except.ok.injEq, Prod.mk.injEq] at h
      simp [← h.1]
  | f :: rest, s, ds, s', h => by
      by_cases hf : f.modifiedTime < cutoff
      · rw [sweepLoop, if_pos hf] at h
        cases hd : delete_file s f.id with
        | error e => simp only [hd] at h; exact absurd h (by simp)
        | ok s1 =>
            simp only [hd] at h
            cases hrec : sweepLoop cutoff rest s1 with
            | error e => simp only [hrec] at h; exact absurd h (by simp)
            | ok p =>
                simp only [hrec, Except.ok.injEq, Prod.mk.injEq] at h
                have htail := sweepLoop_ok_deleted cutoff rest s1 p.1 p.2 (by
                  rw [hrec])
                rw [List.filter_cons, if_pos (by simpa using hf), ← htail]
                exact h.1.symm
      · rw [sweepLoop, if_neg hf] at h
        have htail := sweepLoop_ok_deleted cutoff rest s ds s' h
        rw [List.filter_cons, if_neg (by simpa using hf), htail]

/-- C1: Retention eligibility is a strict age cutoff: a completed sweep
deletes an object of the listing iff `now - modifiedTime > maxAge`, and
keeps an object whose age equals `maxAge` exactly. -/
theorem retention_strict_cutoff (now : Int) (files : List DriveFile)
    (s : Store) (ds : List DriveFile) (s' : Store)
    (h : sweepLoop (now - maxAgeSeconds) files s = .ok (ds, s')) :
    ∀ f ∈ files,
      (f ∈ ds ↔ maxAgeSeconds < now - f.modifiedTime) ∧
      (now - f.modifiedTime = maxAgeSeconds → f ∉ ds) := by
  intro f hf
  have hds := sweepLoop_ok_deleted _ files s ds s' h
  subst hds
  refine ⟨?_, ?_⟩
  · rw [List.mem_filter]
    constructor
    · rintro ⟨-, hlt⟩
      simp only [decide_eq_true_eq] at hlt
      omega
    · intro hlt
      exact ⟨hf, by simp only [decide_eq_true_eq]; omega⟩
  · intro heq hmem
    rw [List.mem_filter] at hmem
    simp only [decide_eq_true_eq] at hmem
    omega

/-- Witness for C1: at `now = 1000000` with the 7-day cutoff `395200`,
the sweep over `[fileOld, fileBoundary]` deletes `fileOld` (age over the
limit) and keeps `fileBoundary` (age exactly the limit). -/
theorem retention_strict_cutoff_witness :
    (fileOld ∈ [fileOld] ↔ maxAgeSeconds < 1000000 - fileOld.modifiedTime) ∧
    (1000000 - fileBoundary.modifiedTime = maxAgeSeconds →
      fileBoundary ∉ [fileOld]) := by
  have h := retention_strict_cutoff 1000000 [fileOld, fileBoundary]
    { files := [fileOld, fileBoundary], failDelete := [], creates := 0,
      nextId := 0 }
    [fileOld]
    { files := [fileBoundary], failDelete := [], creates := 0, nextId := 0 }
    (by rfl)
  exact ⟨(h fileOld (by simp)).1, (h fileBoundary (by simp)).2⟩

/-- C2 counterexample: snapshot `[fileOld, fileOld2]`, both eligible at
cutoff `395200`, against a store from which `fileOld` has already been
removed by another actor: the delete raises `NotFound` and the sweep
returns that error instead of completing — `fileOld2`, still present and
eligible, is never deleted, contradicting the claim that the sweep
records the failure and still processes the remaining objects. -/
theorem sweep_abort_counterexample :
    sweepLoop 395200 [fileOld, fileOld2]
        { files := [fileOld2], failDelete := [], creates := 0, nextId := 0 } =
      .error .notFound ∧
    fileOld2.modifiedTime < 395200 ∧
    (∀ ds s', sweepLoop 395200 [fileOld, fileOld2]
        { files := [fileOld2], failDelete := [], creates := 0, nextId := 0 } ≠
      .ok (ds, s')) := by
  refine ⟨by rfl, by norm_num [fileOld2], ?_⟩
  intro ds s' hcontra
  rw [show sweepLoop 395200 [fileOld, fileOld2]
      { files := [fileOld2], failDelete := [], creates := 0, nextId := 0 } =
      .error .notFound from rfl] at hcontra
  exact absurd hcontra (by simp)

/-- C2 (amended): a per-object deletion failure is not caught inside the
sweep loop: if the first eligible object's delete call raises, the whole
sweep raises that same error, and no remaining object of the snapshot is
processed (the result is an error for every possible tail). -/
theorem sweep_aborts_on_delete_failure (cutoff : Int) (f : DriveFile)
    (rest : List DriveFile) (s : Store) (e : DriveError)
    (hf : f.modifiedTime < cutoff)
    (he : delete_file s f.id = .error e) :
    sweepLoop cutoff (f :: rest) s = .error e := by
  rw [sweepLoop, if_pos hf]
  simp only [he]

/-- Witness for C2 (amended): the already-gone `fileOld` aborts the sweep
with `NotFound`. -/
theorem sweep_aborts_on_delete_failure_witness :
    sweepLoop 395200 [fileOld, fileOld2]
        { files := [fileOld2], failDelete := [], creates := 0, nextId := 0 } =
      .error .notFound :=
  sweep_aborts_on_delete_failure 395200 fileOld [fileOld2]
    { files := [fileOld2], failDelete := [], creates := 0, nextId := 0 }
    .notFound (by norm_num [fileOld]) (by rfl)

/-- C3 counterexample: a run where credentials resolve, the folder is
found and the listing succeeds, but one object's delete call fails with a
store error: the exception escapes `cleanup_old_files` and `__main__`
exits `1`, contradicting the claim that such a run exits `0` and that a
non-zero exit happens only when credential resolution or the listing
itself fails. -/
theorem exit_code_counterexample :
    mainExitCode envOk
        { files := [folder0, fileOld, fileOld2], failDelete := ["old"],
          creates := 0, nextId := 0 } 1000000 = 1 ∧
    (get_credentials envOk).isOk = true ∧
    get_folder_id_c
        { files := [folder0, fileOld, fileOld2], failDelete := ["old"],
          creates := 0, nextId := 0 } = some "fid" := by
  exact ⟨by rfl, by rfl, by rfl⟩

/-- C3 (amended): the batch job's exit code is `0` exactly when
`cleanup_old_files` raises no exception: a credential-resolution failure
exits `1`, a completed run (even one deleting nothing) exits `0`, and any
`DriveError` escaping the sweep — including a single object's delete
failure — exits `1`. -/
theorem exit_code_zero_iff_no_exception (env : Env) (s : Store) (now : Int) :
    ((∃ e, get_credentials env = .error e) → mainExitCode env s now = 1) ∧
    ((∃ n s', cleanup_old_files env s now = .ok (n, s')) →
      mainExitCode env s now = 0) ∧
    (∀ e, cleanup_old_files env s now = .error e →
      mainExitCode env s now = 1) := by
  refine ⟨?_, ?_, ?_⟩
  · rintro ⟨e, he⟩
    rw [mainExitCode]
    have : cleanup_old_files env s now = .error e := by
      rw [cleanup_old_files]
      simp only [he]
    simp only [this]
  · rintro ⟨n, s', h⟩
    rw [mainExitCode]
    simp only [h]
  · intro e h
    rw [mainExitCode]
    simp only [h]

/-- Witness for C3 (amended): the missing-credentials run exits `1`, a
clean run exits `0`, and the failing-delete run exits `1`. -/
theorem exit_code_zero_iff_no_exception_witness :
    mainExitCode { token := none, refreshToken := none, clientId := none,
                   clientSecret := none }
      { files := [], failDelete := [], creates := 0, nextId := 0 } 0 = 1 ∧
    mainExitCode envOk
      { files := [folder0, fileBoundary], failDelete := [], creates := 0,
        nextId := 0 } 1000000 = 0 ∧
    mainExitCode envOk
      { files := [folder0, fileOld], failDelete := ["old"], creates := 0,
        nextId := 0 } 1000000 = 1 := by
  refine ⟨?_, ?_, ?_⟩
  · exact (exit_code_zero_iff_no_exception _ _ 0).1 ⟨.authError, by rfl⟩
  · exact (exit_code_zero_iff_no_exception _ _ 1000000).2.1
      ⟨0, _, by rfl⟩
  · exact (exit_code_zero_iff_no_exception _ _ 1000000).2.2 .storeError
      (by rfl)

/-- The folder created on the empty-result path matches the folder query
(right name, folder mimeType, not trashed). -/
theorem createdFolder_matches (s : Store) :
    matchingFolders { s with files := s.files ++ [createdFolder s],
                             creates := s.creates + 1,
                             nextId := s.nextId + 1 } =
      matchingFolders s ++ [createdFolder s] := by
  simp [matchingFolders, List.filter_append, createdFolder]

/-- C4: Folder resolution is adopt-first and idempotent: a non-empty
folder query returns the first listed folder's id with no create call; an
empty query performs exactly one create call; and from a store with zero
matching folders, the second of two sequential resolve calls performs no
further create and returns the same id as the first. -/
theorem folder_resolution_idempotent (s : Store) :
    (∀ f fs, matchingFolders s = f :: fs →
      app_get_folder_id s = (f.id, s)) ∧
    (matchingFolders s = [] →
      (app_get_folder_id s).2.creates = s.creates + 1 ∧
      app_get_folder_id ((app_get_folder_id s).2) =
        ((app_get_folder_id s).1, (app_get_folder_id s).2)) := by
  constructor
  · intro f fs h
    simp only [app_get_folder_id, h]
  · intro h
    simp only [app_get_folder_id, h]
    refine ⟨trivial, ?_⟩
    have hm := createdFolder_matches s
    rw [h] at hm
    simp only [List.nil_append] at hm
    simp only [app_get_folder_id, hm]

/-- Witness for C4: adopting an existing folder touches nothing, and two
resolves on an account with no staging folder create one folder and agree
on its id. -/
theorem folder_resolution_idempotent_witness :
    app_get_folder_id
        { files := [folder0], failDelete := [], creates := 0, nextId := 0 } =
      ("fid", { files := [folder0], failDelete := [], creates := 0,
                nextId := 0 }) ∧
    (app_get_folder_id
        { files := [], failDelete := [], creates := 0, nextId := 0 }).2.creates
      = 1 ∧
    app_get_folder_id
        ((app_get_folder_id
          { files := [], failDelete := [], creates := 0, nextId := 0 }).2) =
      ((app_get_folder_id
          { files := [], failDelete := [], creates := 0, nextId := 0 }).1,
       (app_get_folder_id
          { files := [], failDelete := [], creates := 0, nextId := 0 }).2) := by
  refine ⟨?_, ?_, ?_⟩
  · exact (folder_resolution_idempotent _).1 folder0 [] (by rfl)
  · exact ((folder_resolution_idempotent _).2 (by rfl)).1
  · exact ((folder_resolution_idempotent _).2 (by rfl)).2

/-- The upload loop attempts every item, counts exactly the successes on
top of the accumulator, and its outcome trace mirrors the items. -/
theorem uploadBatchLoop_spec {α β : Type} (up : α → Except DriveError β) :
    ∀ (items : List α) (c : Nat),
      (uploadBatchLoop up items c).1 =
        c + (items.filter fun it => (up it).isOk).length ∧
      (uploadBatchLoop up items c).2 = items.map fun it => (up it).isOk
  | [], c => by simp [uploadBatchLoop]
  | it :: rest, c => by
      cases hu : up it with
      | ok b =>
          have ih := uploadBatchLoop_spec up rest (c + 1)
          simp only [uploadBatchLoop, hu, List.filter_cons, List.map_cons,
            Except.isOk, Except.toBool, if_pos, ih.1, ih.2]
          refine ⟨?_, trivial⟩
          simp only [List.length_cons]
          omega
      | error e =>
          have ih := uploadBatchLoop_spec up rest c
          simp only [uploadBatchLoop, hu, List.filter_cons, List.map_cons,
            Except.isOk, Except.toBool, ih.1, ih.2]
          simp

/-- C5: Batch upload is per-item isolated: every selected item is
attempted (the outcome trace has one entry per item, in order, a
failure at any position leaving later entries intact), and the reported
success count is exactly the number of items whose upload succeeded. -/
theorem batch_upload_isolation {α β : Type} (up : α → Except DriveError β)
    (items : List α) :
    (uploadBatchLoop up items 0).2.length = items.length ∧
    (uploadBatchLoop up items 0).2 = items.map (fun it => (up it).isOk) ∧
    (uploadBatchLoop up items 0).1 =
      (items.filter fun it => (up it).isOk).length := by
  have h := uploadBatchLoop_spec up items 0
  exact ⟨by rw [h.2]; simp, h.2, by rw [h.1]; simp⟩

/-- C6: With no matching folder, the batch job sweeps nothing: it deletes
no object, returns a zero-deletion report with the store untouched, and
exits `0`. -/
theorem missing_folder_noop (env : Env) (s : Store) (now : Int)
    (hc : ∃ c, get_credentials env = .ok c)
    (hf : get_folder_id_c s = none) :
    cleanup_old_files env s now = .ok (0, s) ∧
    mainExitCode env s now = 0 := by
  obtain ⟨c, hc⟩ := hc
  have h : cleanup_old_files env s now = .ok (0, s) := by
    rw [cleanup_old_files]
    simp only [hc, hf]
  exact ⟨h, by rw [mainExitCode]; simp only [h]⟩

/-- Witness for C6: an account holding only a plain file named nothing
like the staging folder yields a zero-deletion run exiting `0`. -/
theorem missing_folder_noop_witness :
    cleanup_old_files envOk
        { files := [fileOld], failDelete := [], creates := 0, nextId := 0 }
        1000000 =
      .ok (0, { files := [fileOld], failDelete := [], creates := 0,
                nextId := 0 }) ∧
    mainExitCode envOk
        { files := [fileOld], failDelete := [], creates := 0, nextId := 0 }
        1000000 = 0 :=
  missing_folder_noop envOk
    { files := [fileOld], failDelete := [], creates := 0, nextId := 0 }
    1000000 ⟨⟨"t", "r", "ci", "cs"⟩, by rfl⟩ (by rfl)

/-- 101 distinct files parented at `"fid"`, modified at seconds
`0, 1, ..., 100`. -/
def manyFiles : List DriveFile :=
  (List.range 101).map fun (i : ℕ) =>
    { id := toString i, name := toString i, modifiedTime := (i : ℕ) |> Int.ofNat,
      size := none, trashed := false, parent := some "fid", isFolder := false }

/-- A store whose staging folder holds the 101 files of `manyFiles`. -/
def bigStore : Store :=
  { files := manyFiles, failDelete := [], creates := 0, nextId := 0 }

/-- C7 counterexample: with 101 non-trashed objects parented at the
folder, the sweep's listing holds only 100 entries (`pageSize=100`, one
page, no page-token loop), so it does not return every object of the
folder. -/
theorem listing_truncation_counterexample :
    (folderObjects bigStore "fid").length = 101 ∧
    (list_files bigStore "fid").length = 100 := by
  have hfo : folderObjects bigStore "fid" = manyFiles := by
    rw [folderObjects]
    apply List.filter_eq_self.mpr
    intro f hf
    simp only [bigStore, manyFiles, List.mem_map, List.mem_range] at hf
    obtain ⟨i, -, rfl⟩ := hf
    simp
  have hlen : manyFiles.length = 101 := by
    rw [manyFiles, List.length_map, List.length_range]
  refine ⟨by rw [hfo, hlen], ?_⟩
  rw [list_files, hfo, List.length_take, List.length_insertionSort, hlen]
  norm_num

/-- C7 (amended): the sweep's listing is one page of at most 100 entries:
the non-trashed objects parented at the resolved folder id, ordered
oldest-first by last-modified time and truncated to the first 100; in
particular, whenever the folder holds at most 100 such objects the
listing is exactly all of them, oldest-first. -/
theorem listing_sorted_oldest_first (s : Store) (folderId : String)
    (h : (folderObjects s folderId).length ≤ 100) :
    (list_files s folderId).Perm (folderObjects s folderId) ∧
    List.Sorted timeLE (list_files s folderId) := by
  have hlen : (List.insertionSort timeLE (folderObjects s folderId)).length
      ≤ 100 := by
    rw [List.length_insertionSort]
    exact h
  rw [list_files, List.take_of_length_le hlen]
  exact ⟨List.perm_insertionSort _ _, List.sorted_insertionSort _ _⟩

/-- Witness for C7 (amended): a three-object folder lists all three,
oldest-first. -/
theorem listing_sorted_oldest_first_witness :
    (list_files
        { files := [folder0, fileBoundary, fileOld, fileOld2],
          failDelete := [], creates := 0, nextId := 0 } "fid").Perm
      (folderObjects
        { files := [folder0, fileBoundary, fileOld, fileOld2],
          failDelete := [], creates := 0, nextId := 0 } "fid") ∧
    List.Sorted timeLE
      (list_files
        { files := [folder0, fileBoundary, fileOld, fileOld2],
          failDelete := [], creates := 0, nextId := 0 } "fid") :=
  listing_sorted_oldest_first _ "fid" (by decide)

/-- C8: One fixed cutoff, one listing snapshot: a completed sweep's
outcome is fully determined by the single listing taken at sweep start
and the single cutoff `now - maxAge`: its delete trace is that listing
filtered by that one cutoff, and the reported count is the trace's
length. -/
theorem single_cutoff_single_listing (env : Env) (s : Store) (now : Int)
    (folderId : String) (n : Nat) (s' : Store)
    (hf : get_folder_id_c s = some folderId)
    (h : cleanup_old_files env s now = .ok (n, s')) :
    ∃ ds, sweepLoop (now - maxAgeSeconds) (list_files s folderId) s =
        .ok (ds, s') ∧
      ds = (list_files s folderId).filter
        (fun f => decide (f.modifiedTime < now - maxAgeSeconds)) ∧
      n = ds.length := by
  rw [cleanup_old_files] at h
  cases hc : get_credentials env with
  | error e => simp only [hc] at h; exact absurd h (by simp)
  | ok c =>
      simp only [hc, hf] at h
      cases hs : sweepLoop (now - maxAgeSeconds) (list_files s folderId) s with
      | error e => simp only [hs] at h; exact absurd h (by simp)
      | ok p =>
          obtain ⟨ds, s2⟩ := p
          simp only [hs, Except.ok.injEq, Prod.mk.injEq] at h
          obtain ⟨hn, hs2⟩ := h
          subst hs2
          exact ⟨ds, rfl, sweepLoop_ok_deleted _ _ _ _ _ hs, hn.symm⟩

/-- Witness for C8: the completed run over `[fileOld, fileBoundary]`
reports exactly the length of the one-cutoff filter of the one listing. -/
theorem single_cutoff_single_listing_witness :
    ∃ ds, sweepLoop (1000000 - maxAgeSeconds)
        (list_files
          { files := [folder0, fileOld, fileBoundary], failDelete := [],
            creates := 0, nextId := 0 } "fid")
        { files := [folder0, fileOld, fileBoundary], failDelete := [],
          creates := 0, nextId := 0 } =
        .ok (ds,
          { files := [folder0, fileBoundary], failDelete := [],
            creates := 0, nextId := 0 }) ∧
      ds = (list_files
          { files := [folder0, fileOld, fileBoundary], failDelete := [],
            creates := 0, nextId := 0 } "fid").filter
        (fun f => decide (f.modifiedTime < 1000000 - maxAgeSeconds)) ∧
      1 = ds.length :=
  single_cutoff_single_listing envOk _ 1000000 "fid" 1 _ (by rfl) (by rfl)

/-- Running the download loop with fuel exceeding the number of chunks
the store will serve returns the buffer extended by all chunks. -/
theorem download_file_flatten :
    ∀ (chunks : List (List Nat)) (acc : List Nat) (fuel : Nat),
      chunks.length < fuel →
      download_file fuel ⟨chunks, acc⟩ = some (acc ++ chunks.flatten)
  | [], acc, 0, h => by omega
  | [], acc, fuel + 1, _ => by
      simp [download_file, next_chunk]
  | c :: rest, acc, 0, h => by omega
  | c :: rest, acc, fuel + 1, h => by
      cases rest with
      | nil => simp [download_file, next_chunk]
      | cons c2 r2 =>
          have ih := download_file_flatten (c2 :: r2) (acc ++ c) fuel (by
            simp only [List.length_cons] at h ⊢
            omega)
          simp only [download_file, next_chunk, List.isEmpty_cons,
            Bool.false_eq_true, if_false, ih, List.flatten_cons,
            List.append_assoc]

/-- C9: The chunked download loop terminates for every stream that
signals completion after finitely many chunks, returning the complete
object content (the concatenation of all served chunks), for any
iteration budget beyond the chunk count. -/
theorem chunked_download_terminates (chunks : List (List Nat)) (fuel : Nat)
    (h : chunks.length < fuel) :
    download_file fuel ⟨chunks, []⟩ = some chunks.flatten := by
  simpa using download_file_flatten chunks [] fuel h

/-- Witness for C9: a two-chunk stream downloads to the full content in
three loop iterations. -/
theorem chunked_download_terminates_witness :
    download_file 3 ⟨[[1, 2], [3]], []⟩ = some [1, 2, 3] :=
  chunked_download_terminates [[1, 2], [3]] 3 (by norm_num)

/-- `format_size`'s loop renders the scaled value and the settled unit. -/
theorem format_size_loop_decomp :
    ∀ (us : List String) (q : ℚ),
      format_size_loop q us =
        fmt1 (size_scaled_loop q us) ++ " " ++ size_unit_loop q us
  | [], q => by
      show fmt1 q ++ " TB" = fmt1 q ++ " " ++ "TB"
      rw [String.append_assoc]
      exact rfl
  | u :: us, q => by
      by_cases hq : q < 1024
      · simp [format_size_loop, size_scaled_loop, size_unit_loop, hq]
      · simp [format_size_loop, size_scaled_loop, size_unit_loop, hq,
          format_size_loop_decomp us (q / 1024)]

/-- The settled unit is one of the five. -/
theorem size_unit_loop_mem (q : ℚ) :
    size_unit_loop q sizeUnits ∈ ["B", "KB", "MB", "GB", "TB"] := by
  simp only [sizeUnits, size_unit_loop]
  split_ifs <;> simp

/-- The unit is `B` exactly for byte counts below 1024. -/
theorem size_unit_eq_B_iff (n : Nat) : size_unit n = "B" ↔ n < 1024 := by
  rw [size_unit]
  simp only [sizeUnits, size_unit_loop]
  by_cases h : (n : ℚ) < 1024
  · rw [if_pos h]
    have hn : n < 1024 := by exact_mod_cast h
    simp [hn]
  · rw [if_neg h]
    constructor
    · intro hs
      exfalso
      revert hs
      split_ifs <;> simp
    · intro hn
      exfalso
      exact h (by exact_mod_cast hn)

/-- Byte counts of at least `1024^4` settle on `TB`. -/
theorem size_unit_eq_TB (n : Nat) (h : 1024 ^ 4 ≤ n) : size_unit n = "TB" := by
  have h0 : ((1024 : ℚ)) ^ 4 ≤ (n : ℚ) := by exact_mod_cast h
  have hbig : (1099511627776 : ℚ) ≤ (n : ℚ) := by
    have he : ((1024 : ℚ)) ^ 4 = 1099511627776 := by norm_num
    linarith [h0]
  have c1 : ¬((n : ℚ) < 1024) := by rw [not_lt]; linarith
  have c2 : ¬((n : ℚ) / 1024 < 1024) := by
    rw [not_lt, le_div_iff₀ (by norm_num : (0 : ℚ) < 1024)]
    linarith
  have c3 : ¬((n : ℚ) / 1024 / 1024 < 1024) := by
    rw [not_lt, div_div,
      le_div_iff₀ (by norm_num : (0 : ℚ) < 1024 * 1024)]
    norm_num
    linarith
  have c4 : ¬((n : ℚ) / 1024 / 1024 / 1024 < 1024) := by
    rw [not_lt, div_div, div_div,
      le_div_iff₀ (by norm_num : (0 : ℚ) < 1024 * (1024 * 1024))]
    norm_num
    linarith
  rw [size_unit]
  simp only [sizeUnits, size_unit_loop]
  rw [if_neg c1, if_neg c2, if_neg c3, if_neg c4]

/-- C10: The size formatter is total over its accepted inputs: `None`
renders exactly `"N/A"`, and every non-negative integer byte count
renders as a number followed by exactly one unit among `B`, `KB`, `MB`,
`GB`, `TB`, with unit `B` iff the count is below 1024 and unit `TB` for
every count of at least `1024^4`. -/
theorem format_size_total_spec :
    format_size none = "N/A" ∧
    ∀ n : Nat,
      format_size (some n) = fmt1 (size_scaled n) ++ " " ++ size_unit n ∧
      size_unit n ∈ ["B", "KB", "MB", "GB", "TB"] ∧
      (size_unit n = "B" ↔ n < 1024) ∧
      (1024 ^ 4 ≤ n → size_unit n = "TB") := by
  refine ⟨rfl, fun n => ⟨?_, ?_, ?_, ?_⟩⟩
  · rw [format_size, size_scaled, size_unit]
    exact format_size_loop_decomp sizeUnits (n : ℚ)
  · exact size_unit_loop_mem _
  · exact size_unit_eq_B_iff n
  · exact size_unit_eq_TB n

/-- Witness for C10: `1023` bytes stay in `B`, `1024^4` bytes settle on
`TB`. -/
theorem format_size_total_spec_witness :
    (size_unit 1023 = "B" ↔ 1023 < 1024) ∧ size_unit (1024 ^ 4) = "TB" :=
  ⟨(format_size_total_spec.2 1023).2.2.1,
   (format_size_total_spec.2 (1024 ^ 4)).2.2.2 (le_refl _)⟩

end FileTransfer
